import Mathlib

/-!
Verification development for the two Acts components under
src/Core/include: the closest-approach estimator
(Acts/Vertexing/ImpactPoint3dEstimator.hpp) and the single-hit
space-point builder (ACTS/Tools/OneHitSpacePointBuilder.hpp).

Only the headers of the repository are available: the method bodies live
in ImpactPoint3dEstimator.ipp and OneHitSpacePointBuilder.cpp, which are
not part of the sources.  Definitions whose doc comment starts with
"Modelled from the spec:" embed such a missing body faithfully from the
specification text; everything else is translated directly from the
headers.  Machine doubles are modelled by the rationals, C++ int by Int,
and fallible operations (Acts Result) by Except.
-/

/-- A 3D vector with rational components, modelling Acts Vector3D. -/
structure Vec3 where
  x : ℚ
  y : ℚ
  z : ℚ
deriving DecidableEq

/-- A 2D vector with rational components, modelling Acts Vector2D. -/
structure Vec2 where
  x : ℚ
  y : ℚ
deriving DecidableEq

def Vec3.add (a b : Vec3) : Vec3 := ⟨a.x + b.x, a.y + b.y, a.z + b.z⟩

def Vec3.sub (a b : Vec3) : Vec3 := ⟨a.x - b.x, a.y - b.y, a.z - b.z⟩

/-- Euclidean inner product of two 3D vectors. -/
def Vec3.dot (a b : Vec3) : ℚ := a.x * b.x + a.y * b.y + a.z * b.z

/-- Squared Euclidean norm of a 3D vector. -/
def Vec3.normSq (a : Vec3) : ℚ := Vec3.dot a a

/-- The error cases of the discriminated Result used by the estimator and
the builder: Newton non-convergence, propagator failure, malformed caller
input. -/
inductive VertexingError where
  | NumericalFailure : VertexingError
  | PropagationFailure : VertexingError
  | InvalidInput : VertexingError
deriving DecidableEq

/-- Propagation direction, modelling Acts NavigationDirection. -/
inductive NavigationDirection where
  | forward : NavigationDirection
  | backward : NavigationDirection
deriving DecidableEq

/-- The propagator options handed to the estimator configuration.  The
header only touches the direction field; one further representative field
(maxStepSize) is kept so that the constructor can be seen to leave every
other option unchanged. -/
structure PropagatorOptions where
  direction : NavigationDirection
  maxStepSize : ℚ
deriving DecidableEq

/-- Read-only geometry context token threaded through the calls; carries
no data relevant to the modelled computations. -/
structure GeometryContext

/-- The configuration of ImpactPoint3dEstimator, from the header: the
magnetic field (generic type, matching the BField_t template parameter),
the shared propagator handle (generic type), the propagator options, the
Newton iteration cap (C++ int, default member initializer 20) and the
Newton precision (default member initializer 1e-10). -/
structure Config (β π : Type) where
  bField : β
  propagator : π
  pOptions : PropagatorOptions
  maxIterations : Int
  precision : ℚ

/-- The Config constructor from the header (lines 38 to 46): it stores
bIn, prop and propOptions, then, when doBackwardPropagation holds, forces
pOptions.direction to backward before construction ends.  The two
remaining fields take their default member initializers 20 and 1e-10. -/
def Config.ctor {β π : Type} (bIn : β) (prop : π) (propOptions : PropagatorOptions)
    (doBackwardPropagation : Bool) : Config β π :=
  ⟨bIn, prop,
    if doBackwardPropagation then
      ⟨NavigationDirection.backward, propOptions.maxStepSize⟩
    else propOptions,
    20, 1 / 10 ^ 10⟩

/-- The header declares doBackwardPropagation with default argument true;
a call that omits the argument therefore constructs with true. -/
def Config.ctorDefault {β π : Type} (bIn : β) (prop : π)
    (propOptions : PropagatorOptions) : Config β π :=
  Config.ctor bIn prop propOptions true

/-- The estimator: it holds exactly one data member, the const
configuration m_cfg, set by the constructor and never touched again. -/
structure ImpactPoint3dEstimator (β π : Type) where
  m_cfg : Config β π

/-- A magnetic field model: the instantiation of the estimator whose
BField_t is not int.  getField returns the field vector at a position. -/
structure BFieldModel where
  getField : Vec3 → Vec3

/-- The getBField overload enabled by enable_if when BField_t == int
(header lines 147 to 151, the instantiation without a field model): the
body returns m_cfg.bField, the configured int, converted to double. -/
def ImpactPoint3dEstimator.getBField_noField {π : Type}
    (est : ImpactPoint3dEstimator Int π) (_linPointPos : Vec3) : ℚ :=
  (est.m_cfg.bField : ℚ)

/-- The getBField overload enabled by enable_if when BField_t != int
(header lines 158 to 162): it evaluates the field model at the position
and returns the z component of the resulting vector. -/
def ImpactPoint3dEstimator.getBField_withField {π : Type}
    (est : ImpactPoint3dEstimator BFieldModel π) (linPointPos : Vec3) : ℚ :=
  (est.m_cfg.bField.getField linPointPos).z

/-- Modelled from the spec: the bounded Newton loop at the heart of
performNewtonApproximation, whose body is in the missing
ImpactPoint3dEstimator.ipp.  One fuel unit is one Newton step: the step
produces the next phase value, the loop returns it as soon as the update
magnitude is strictly below the precision, otherwise it continues, and
exhausting the fuel without reaching the precision is a
NumericalFailure. -/
def newtonLoop (update : ℚ → ℚ) (precision : ℚ) : Nat → ℚ → Except VertexingError ℚ
  | 0, _ => Except.error VertexingError.NumericalFailure
  | Nat.succ n, phi =>
      if |update phi - phi| < precision then Except.ok (update phi)
      else newtonLoop update precision n (update phi)

/-- Modelled from the spec: performNewtonApproximation (declared at
header lines 122 to 124, body in the missing .ipp) iterates the
helix-geometry phase update at most m_cfg.maxIterations times with
stopping tolerance m_cfg.precision.  The update step, a function of the
track position, reference position, theta and helix radius, is abstracted
as the update argument. -/
def ImpactPoint3dEstimator.performNewtonApproximation {β π : Type}
    (est : ImpactPoint3dEstimator β π) (update : ℚ → ℚ) (phi : ℚ) :
    Except VertexingError ℚ :=
  newtonLoop update est.m_cfg.precision est.m_cfg.maxIterations.toNat phi

/-- Modelled from the spec: the helical trajectory model used by
calculateDistance.  The missing .ipp derives from the bound track
parameters, the reference surface and the field a helix parametrized by
phase: refPos is the reference position of the trajectory, offset phi the
displacement of the trajectory point from refPos at phase phi, offsetD1
and offsetD2 the first and second phase derivatives of that displacement
(they encode d0, z0, phi, theta, q over p and the field-derived radius),
and phi0 the initial phase taken from the track parameters. -/
structure HelixModel where
  refPos : Vec3
  offset : ℚ → Vec3
  offsetD1 : ℚ → Vec3
  offsetD2 : ℚ → Vec3
  phi0 : ℚ

/-- Modelled from the spec: the Newton update on the phase angle, built
from the first and second derivative of the squared distance between the
trajectory point at phase phi and the reference position vtxPos. -/
def newtonUpdate (m : HelixModel) (vtxPos : Vec3) (phi : ℚ) : ℚ :=
  phi -
    (2 * Vec3.dot (Vec3.sub (Vec3.add m.refPos (m.offset phi)) vtxPos) (m.offsetD1 phi)) /
    (2 * (Vec3.dot (m.offsetD1 phi) (m.offsetD1 phi) +
      Vec3.dot (Vec3.sub (Vec3.add m.refPos (m.offset phi)) vtxPos) (m.offsetD2 phi)))

/-- Translating a trajectory: the reference position moves by t while the
phase-dependent displacement, its derivatives and the initial phase are
unchanged. -/
def translateHelix (m : HelixModel) (t : Vec3) : HelixModel :=
  ⟨Vec3.add m.refPos t, m.offset, m.offsetD1, m.offsetD2, m.phi0⟩

/-- Modelled from the spec: calculateDistance (declared at header lines
72 to 74, body in the missing .ipp) solves for the phase of closest
approach with the bounded Newton iteration and returns the Euclidean
distance between the trajectory point at that phase and vtxPos, or
propagates the NumericalFailure of the solver.  The model returns the
squared Euclidean distance, since the square root is not a rational
operation; the square root is strictly monotone on nonnegatives, so
nonnegativity and invariance statements transfer verbatim. -/
def ImpactPoint3dEstimator.calculateDistance {β π : Type}
    (est : ImpactPoint3dEstimator β π) (_gctx : GeometryContext)
    (m : HelixModel) (vtxPos : Vec3) : Except VertexingError ℚ :=
  match est.performNewtonApproximation (newtonUpdate m vtxPos) m.phi0 with
  | Except.error e => Except.error e
  | Except.ok phiStar =>
      Except.ok (Vec3.normSq (Vec3.sub (Vec3.add m.refPos (m.offset phiStar)) vtxPos))

/-- Bound track parameters, from the spec data model: the five track
parameters (transverse impact offset, longitudinal offset, azimuth, polar
angle, charge over momentum) and an optional 5x5 covariance matrix. -/
structure BoundParameters where
  d0 : ℚ
  z0 : ℚ
  phi : ℚ
  theta : ℚ
  qop : ℚ
  covariance : Option (Fin 5 → Fin 5 → ℚ)

/-- Modelled from the spec: the chi-square-like compatibility score of
getVertexCompatibility, combining the residual offsets with the inverse
of the corresponding 2x2 covariance block (projection orthogonal to the
momentum direction).  Only the dispatch on missing input is constrained
by the claims; the score itself is any fixed scalar computation. -/
def ImpactPoint3dEstimator.compatValue (trkParams : BoundParameters)
    (cov : Fin 5 → Fin 5 → ℚ) : ℚ :=
  let a := cov 0 0
  let b := cov 0 1
  let c := cov 1 0
  let d := cov 1 1
  let det := a * d - b * c
  if det = 0 then 0
  else
    (trkParams.d0 * (d * trkParams.d0 - b * trkParams.z0) +
      trkParams.z0 * (a * trkParams.z0 - c * trkParams.d0)) / det

/-- Modelled from the spec: getVertexCompatibility (declared at header
lines 103 to 105, body in the missing .ipp) takes the approach-point
parameters through a pointer, modelled as an Option.  It fails with
InvalidInput when the pointer is null or the parameters carry no
covariance, and otherwise returns the scalar compatibility value. -/
def ImpactPoint3dEstimator.getVertexCompatibility {β π : Type}
    (est : ImpactPoint3dEstimator β π) (_gctx : GeometryContext)
    (trkParams : Option BoundParameters) (_vertexPos : Vec3) :
    Except VertexingError ℚ :=
  match trkParams with
  | none => Except.error VertexingError.InvalidInput
  | some p =>
      match p.covariance with
      | none => Except.error VertexingError.InvalidInput
      | some cov => Except.ok (ImpactPoint3dEstimator.compatValue p cov)

/-- A detector surface, reduced to the external geometry capability the
builder consumes: the local-to-global transform and its global-to-local
counterpart. -/
structure Surface where
  toGlobal : Vec2 → Vec3
  toLocal : Vec3 → Vec2

/-- A digitized hit cluster on a surface: a non-owning surface reference
and the local 2D coordinates recorded by digitization. -/
structure PlanarModuleCluster where
  surf : Surface
  loc : Vec2

/-- The single-hit space-point builder.  The header declares no data
members, so the structure is empty; every method is const. -/
structure OneHitSpacePointBuilder

/-- Modelled from the spec: localCoords (header lines 52 and 53) returns
the local 2D position of the hit exactly as recorded, no transform. -/
def OneHitSpacePointBuilder.localCoords (_builder : OneHitSpacePointBuilder)
    (hit : PlanarModuleCluster) : Vec2 :=
  hit.loc

/-- Modelled from the spec: globalCoords (header lines 58 and 59) applies
the local-to-global transform of the owning surface to the local
coordinates of the hit. -/
def OneHitSpacePointBuilder.globalCoords (_builder : OneHitSpacePointBuilder)
    (hit : PlanarModuleCluster) : Vec3 :=
  hit.surf.toGlobal hit.loc

/-- A space point under construction: the back-reference to the
originating hit and, once calculated, the global 3D coordinate.  The
associated covariance of the spec data model is omitted because no claim
constrains it. -/
structure SpacePoint where
  hitModule : PlanarModuleCluster
  point : Option Vec3

/-- Modelled from the spec: the staging step of addHits flattens the
per-surface groups in order, one not-yet-calculated space point per
cluster. -/
def stageHits : List (List PlanarModuleCluster) → List SpacePoint
  | [] => []
  | group :: rest => group.map (fun hit => SpacePoint.mk hit none) ++ stageHits rest

/-- Modelled from the spec: addHits (header lines 36 to 39) appends the
staged space points for the given per-surface hit groups to the
caller-owned container and touches nothing else in it.  The C++ method
returns void and mutates spacePoints in place; the embedding passes the
container explicitly and returns its new value. -/
def OneHitSpacePointBuilder.addHits (_builder : OneHitSpacePointBuilder)
    (spacePoints : List SpacePoint) (hits : List (List PlanarModuleCluster)) :
    List SpacePoint :=
  spacePoints ++ stageHits hits

/-- Modelled from the spec: the per-entry step of calculateSpacePoints.
An entry whose point is already computed is left alone (idempotence);
otherwise the global coordinate of its cluster is filled in. -/
def fillSpacePoint (builder : OneHitSpacePointBuilder) (sp : SpacePoint) : SpacePoint :=
  match sp.point with
  | some _ => sp
  | none => SpacePoint.mk sp.hitModule (some (builder.globalCoords sp.hitModule))

/-- Modelled from the spec: calculateSpacePoints (header lines 44 and 45)
computes the space point of every staged entry in the caller-owned
container; the embedding passes the container explicitly. -/
def OneHitSpacePointBuilder.calculateSpacePoints (builder : OneHitSpacePointBuilder)
    (spacePoints : List SpacePoint) : List SpacePoint :=
  spacePoints.map (fillSpacePoint builder)

/-- The estimator method calculateDistance with the instance state
threaded explicitly: the C++ method is const-qualified over the const
member m_cfg, so its embedding returns the instance unchanged next to the
result. -/
def ImpactPoint3dEstimator.calculateDistanceRun {β π : Type}
    (est : ImpactPoint3dEstimator β π) (gctx : GeometryContext)
    (m : HelixModel) (vtxPos : Vec3) :
    ImpactPoint3dEstimator β π × Except VertexingError ℚ :=
  (est, est.calculateDistance gctx m vtxPos)

/-- getVertexCompatibility with the instance state threaded explicitly
(const method over const m_cfg). -/
def ImpactPoint3dEstimator.getVertexCompatibilityRun {β π : Type}
    (est : ImpactPoint3dEstimator β π) (gctx : GeometryContext)
    (trkParams : Option BoundParameters) (vertexPos : Vec3) :
    ImpactPoint3dEstimator β π × Except VertexingError ℚ :=
  (est, est.getVertexCompatibility gctx trkParams vertexPos)

/-- addHits with the builder state threaded explicitly (const method on a
memberless class). -/
def OneHitSpacePointBuilder.addHitsRun (builder : OneHitSpacePointBuilder)
    (spacePoints : List SpacePoint) (hits : List (List PlanarModuleCluster)) :
    OneHitSpacePointBuilder × List SpacePoint :=
  (builder, builder.addHits spacePoints hits)

/-- calculateSpacePoints with the builder state threaded explicitly. -/
def OneHitSpacePointBuilder.calculateSpacePointsRun (builder : OneHitSpacePointBuilder)
    (spacePoints : List SpacePoint) :
    OneHitSpacePointBuilder × List SpacePoint :=
  (builder, builder.calculateSpacePoints spacePoints)

/-- localCoords with the builder state threaded explicitly. -/
def OneHitSpacePointBuilder.localCoordsRun (builder : OneHitSpacePointBuilder)
    (hit : PlanarModuleCluster) : OneHitSpacePointBuilder × Vec2 :=
  (builder, builder.localCoords hit)

/-- globalCoords with the builder state threaded explicitly. -/
def OneHitSpacePointBuilder.globalCoordsRun (builder : OneHitSpacePointBuilder)
    (hit : PlanarModuleCluster) : OneHitSpacePointBuilder × Vec3 :=
  (builder, builder.globalCoords hit)

/-- Concrete propagator options used by the evaluation theorems. -/
def wOpts : PropagatorOptions := ⟨NavigationDirection.forward, 1⟩

/-- A concrete estimator of the no-field instantiation, built through the
Config constructor with bIn = 0. -/
def wEst : ImpactPoint3dEstimator Int Unit := ⟨Config.ctor 0 () wOpts true⟩

/-- A concrete straight-line trajectory through the origin along the x
axis, with initial phase 0: offset phi = (phi, 0, 0). -/
def wHelix : HelixModel :=
  ⟨⟨0, 0, 0⟩, fun phi => ⟨phi, 0, 0⟩, fun _ => ⟨1, 0, 0⟩, fun _ => ⟨0, 0, 0⟩, 0⟩

/-- The reference point (0, 3, 4) of the example scenario in the spec. -/
def wVtx : Vec3 := ⟨0, 3, 4⟩

/-- A concrete field model whose z component at every position is 7. -/
def wFieldA : BFieldModel := ⟨fun p => ⟨p.x, 5, 7⟩⟩

/-- A second field model with different transverse components but the
same z component 7. -/
def wFieldB : BFieldModel := ⟨fun _ => ⟨9, 9, 7⟩⟩

/-- A concrete estimator configured with the first field model. -/
def wEstFA : ImpactPoint3dEstimator BFieldModel Unit := ⟨Config.ctor wFieldA () wOpts true⟩

/-- A concrete estimator configured with the second field model. -/
def wEstFB : ImpactPoint3dEstimator BFieldModel Unit := ⟨Config.ctor wFieldB () wOpts true⟩

/-- A concrete diagonal 5x5 covariance. -/
def wCov : Fin 5 → Fin 5 → ℚ := fun i j => if i = j then 1 else 0

/-- Concrete bound parameters carrying a covariance. -/
def wBP : BoundParameters := ⟨1, 2, 0, 0, 0, some wCov⟩

/-- Concrete bound parameters without a covariance. -/
def wBPnoCov : BoundParameters := ⟨1, 2, 0, 0, 0, none⟩

/-- A concrete builder instance. -/
def wBuilder : OneHitSpacePointBuilder := ⟨⟩

/-- A concrete surface whose transforms are inverse to one another. -/
def wSurfA : Surface := ⟨fun l => ⟨l.x + 1, l.y, 5⟩, fun g => ⟨g.x - 1, g.y⟩⟩

/-- A second concrete surface with inverse transforms. -/
def wSurfB : Surface := ⟨fun l => ⟨l.y, l.x, 0⟩, fun g => ⟨g.y, g.x⟩⟩

/-- A concrete cluster on the first surface. -/
def wClusterA : PlanarModuleCluster := ⟨wSurfA, ⟨2, 3⟩⟩

/-- A concrete cluster on the second surface. -/
def wClusterB : PlanarModuleCluster := ⟨wSurfB, ⟨4, 5⟩⟩

/-- A concrete pre-existing space point entry. -/
def wSP0 : SpacePoint := ⟨wClusterA, none⟩

/-- Unfolding of one Newton step. -/
lemma newtonLoop_succ (u : ℚ → ℚ) (prec : ℚ) (n : Nat) (phi : ℚ) :
    newtonLoop u prec (n + 1) phi =
      if |u phi - phi| < prec then Except.ok (u phi)
      else newtonLoop u prec n (u phi) := rfl

/-- A Newton step whose update magnitude is below the precision stops at
once with the updated phase. -/
lemma newtonLoop_step_stop (u : ℚ → ℚ) (prec : ℚ) (n : Nat) (phi : ℚ)
    (h : |u phi - phi| < prec) :
    newtonLoop u prec (n + 1) phi = Except.ok (u phi) := by
  rw [newtonLoop_succ, if_pos h]

/-- A Newton step whose update magnitude reaches the precision continues
with the updated phase and one fuel unit less. -/
lemma newtonLoop_step_go (u : ℚ → ℚ) (prec : ℚ) (n : Nat) (phi : ℚ)
    (h : ¬|u phi - phi| < prec) :
    newtonLoop u prec (n + 1) phi = newtonLoop u prec n (u phi) := by
  rw [newtonLoop_succ, if_neg h]

/-- The loop fails with NumericalFailure exactly when every one of the
fuel-many update magnitudes stays at or above the precision. -/
lemma newtonLoop_error_iff (u : ℚ → ℚ) (prec : ℚ) :
    ∀ (fuel : Nat) (phi : ℚ),
      (newtonLoop u prec fuel phi = Except.error VertexingError.NumericalFailure ↔
        ∀ k < fuel, prec ≤ |u^[k + 1] phi - u^[k] phi|) := by
  intro fuel
  induction fuel with
  | zero =>
      intro phi
      constructor
      · intro _ k hk
        exact absurd hk (Nat.not_lt_zero k)
      · intro _
        rfl
  | succ n ih =>
      intro phi
      by_cases h : |u phi - phi| < prec
      · rw [newtonLoop_step_stop u prec n phi h]
        constructor
        · intro hcontra
          exact Except.noConfusion hcontra
        · intro hall
          have h0 := hall 0 (Nat.succ_pos n)
          simp only [zero_add, Function.iterate_one, Function.iterate_zero, id_eq] at h0
          exact absurd h0 (not_le.mpr h)
      · rw [newtonLoop_step_go u prec n phi h, ih (u phi)]
        constructor
        · intro hall k hk
          cases k with
          | zero =>
              simpa using not_lt.mp h
          | succ j =>
              have hj := hall j (by omega)
              rw [Function.iterate_succ_apply, Function.iterate_succ_apply]
              exact hj
        · intro hall k hk
          have hk1 := hall (k + 1) (by omega)
          rw [Function.iterate_succ_apply, Function.iterate_succ_apply] at hk1
          exact hk1

/-- The loop returns a value exactly when some step within the fuel is
the first whose update magnitude falls below the precision, and the value
is the phase produced by that step. -/
lemma newtonLoop_ok_iff (u : ℚ → ℚ) (prec : ℚ) :
    ∀ (fuel : Nat) (phi v : ℚ),
      (newtonLoop u prec fuel phi = Except.ok v ↔
        ∃ k, k < fuel ∧ (∀ j < k, prec ≤ |u^[j + 1] phi - u^[j] phi|) ∧
          |u^[k + 1] phi - u^[k] phi| < prec ∧ v = u^[k + 1] phi) := by
  intro fuel
  induction fuel with
  | zero =>
      intro phi v
      constructor
      · intro hcontra
        exact Except.noConfusion hcontra
      · rintro ⟨k, hk, -⟩
        exact absurd hk (Nat.not_lt_zero k)
  | succ n ih =>
      intro phi v
      by_cases h : |u phi - phi| < prec
      · rw [newtonLoop_step_stop u prec n phi h]
        constructor
        · intro hok
          have hv : u phi = v := Except.ok.inj hok
          refine ⟨0, Nat.succ_pos n, ?_, ?_, ?_⟩
          · intro j hj
            exact absurd hj (Nat.not_lt_zero j)
          · simpa using h
          · simpa using hv.symm
        · rintro ⟨k, hk, hall, hlt, hv⟩
          cases k with
          | zero =>
              simp only [zero_add, Function.iterate_one] at hv
              rw [hv]
          | succ j =>
              have h0 := hall 0 (Nat.succ_pos j)
              simp only [zero_add, Function.iterate_one, Function.iterate_zero, id_eq] at h0
              exact absurd h0 (not_le.mpr h)
      · rw [newtonLoop_step_go u prec n phi h, ih (u phi) v]
        constructor
        · rintro ⟨k, hk, hall, hlt, hv⟩
          refine ⟨k + 1, by omega, ?_, ?_, ?_⟩
          · intro j hj
            cases j with
            | zero =>
                simpa using not_lt.mp h
            | succ i =>
                have hi := hall i (by omega)
                rw [Function.iterate_succ_apply, Function.iterate_succ_apply]
                exact hi
          · rw [Function.iterate_succ_apply, Function.iterate_succ_apply]
            exact hlt
          · rw [Function.iterate_succ_apply]
            exact hv
        · rintro ⟨k, hk, hall, hlt, hv⟩
          cases k with
          | zero =>
              exact absurd (by simpa using hlt) h
          | succ j =>
              refine ⟨j, by omega, ?_, ?_, ?_⟩
              · intro i hi
                have hi1 := hall (i + 1) (by omega)
                rw [Function.iterate_succ_apply, Function.iterate_succ_apply] at hi1
                exact hi1
              · rw [Function.iterate_succ_apply, Function.iterate_succ_apply] at hlt
                exact hlt
              · rw [Function.iterate_succ_apply] at hv
                exact hv

/-- Simultaneous translation of two base points cancels in the relative
position. -/
lemma vec3_translate_cancel (a t c b : Vec3) :
    Vec3.sub (Vec3.add (Vec3.add a t) c) (Vec3.add b t) =
      Vec3.sub (Vec3.add a c) b := by
  simp only [Vec3.add, Vec3.sub, Vec3.mk.injEq]
  refine ⟨by ring, by ring, by ring⟩

/-- The squared norm is nonnegative. -/
lemma vec3_normSq_nonneg (v : Vec3) : 0 ≤ Vec3.normSq v := by
  unfold Vec3.normSq Vec3.dot
  have hx := mul_self_nonneg v.x
  have hy := mul_self_nonneg v.y
  have hz := mul_self_nonneg v.z
  linarith

/-- The Newton phase update is invariant under simultaneous translation
of the trajectory reference position and the reference point. -/
lemma newtonUpdate_translateHelix (m : HelixModel) (t vtxPos : Vec3) :
    newtonUpdate (translateHelix m t) (Vec3.add vtxPos t) = newtonUpdate m vtxPos := by
  funext phi
  unfold newtonUpdate translateHelix
  simp only []
  rw [show Vec3.sub (Vec3.add (Vec3.add m.refPos t) (m.offset phi)) (Vec3.add vtxPos t) =
        Vec3.sub (Vec3.add m.refPos (m.offset phi)) vtxPos from
      vec3_translate_cancel m.refPos t (m.offset phi) vtxPos]

/-- calculateDistance is invariant under simultaneous translation of the
trajectory reference position and the reference point. -/
lemma calculateDistance_translateHelix {β π : Type} (est : ImpactPoint3dEstimator β π)
    (gctx : GeometryContext) (m : HelixModel) (vtxPos t : Vec3) :
    est.calculateDistance gctx (translateHelix m t) (Vec3.add vtxPos t) =
      est.calculateDistance gctx m vtxPos := by
  unfold ImpactPoint3dEstimator.calculateDistance ImpactPoint3dEstimator.performNewtonApproximation
  rw [newtonUpdate_translateHelix m t vtxPos]
  show (match newtonLoop (newtonUpdate m vtxPos) est.m_cfg.precision
      est.m_cfg.maxIterations.toNat m.phi0 with
    | Except.error e => Except.error e
    | Except.ok phiStar =>
        Except.ok (Vec3.normSq (Vec3.sub (Vec3.add (Vec3.add m.refPos t)
          (m.offset phiStar)) (Vec3.add vtxPos t)))) = _
  cases hres : newtonLoop (newtonUpdate m vtxPos) est.m_cfg.precision
      est.m_cfg.maxIterations.toNat m.phi0 with
  | error e => rfl
  | ok phiStar =>
      simp only []
      rw [vec3_translate_cancel m.refPos t (m.offset phiStar) vtxPos]

/-- Staging singleton groups produces one not-yet-calculated space point
per group, in order. -/
lemma stageHits_map_singleton (cs : List PlanarModuleCluster) :
    stageHits (cs.map fun c => [c]) = cs.map fun c => SpacePoint.mk c none := by
  induction cs with
  | nil => rfl
  | cons c rest ih =>
      simp only [List.map_cons, stageHits, List.map_nil, List.singleton_append,
        List.cons_append, List.nil_append, ih]

/-- Evaluation of the modelled calculateDistance on the example scenario
of the spec: a zero-curvature trajectory through the origin along the x
axis and reference point (0, 3, 4) give squared distance 25. -/
lemma wEst_calculateDistance_eval :
    wEst.calculateDistance ⟨⟩ wHelix wVtx = Except.ok 25 := by
  have hu : newtonUpdate wHelix wVtx 0 = 0 := by
    norm_num [newtonUpdate, wHelix, wVtx, Vec3.add, Vec3.sub, Vec3.dot]
  have hcond : |newtonUpdate wHelix wVtx 0 - 0| < wEst.m_cfg.precision := by
    rw [hu]
    show |(0 : ℚ) - 0| < 1 / 10 ^ 10
    norm_num
  have hloop : newtonLoop (newtonUpdate wHelix wVtx) wEst.m_cfg.precision
      wEst.m_cfg.maxIterations.toNat wHelix.phi0 = Except.ok 0 := by
    show newtonLoop (newtonUpdate wHelix wVtx) wEst.m_cfg.precision (19 + 1) 0 = Except.ok 0
    rw [newtonLoop_step_stop _ _ _ _ hcond, hu]
  unfold ImpactPoint3dEstimator.calculateDistance ImpactPoint3dEstimator.performNewtonApproximation
  rw [hloop]
  show Except.ok (Vec3.normSq (Vec3.sub (Vec3.add wHelix.refPos (wHelix.offset 0)) wVtx))
      = Except.ok 25
  norm_num [wHelix, wVtx, Vec3.add, Vec3.sub, Vec3.normSq, Vec3.dot]

/-- C1: evaluation of the code at the failing input of the claim.  The
claim (and the doc comment of the overload itself) says that for the
BField_t == int instantiation the field strength used by the solver is
zero, but the overload body (header line 150) returns the configured
value m_cfg.bField: an estimator constructed with bIn = 3 uses field
strength 3, not 0.  The static enable_if dispatch half of the claim does
hold, exactly one overload per instantiation. -/
theorem getBField_noField_failing_input :
    (ImpactPoint3dEstimator.mk (Config.ctor (3 : Int) () wOpts true)).getBField_noField
        ⟨1, 2, 3⟩ = 3 ∧ (3 : ℚ) ≠ 0 := by
  constructor
  · show ((3 : Int) : ℚ) = 3
    norm_num
  · norm_num

/-- C2: the Newton iteration of performNewtonApproximation fails with
NumericalFailure exactly when every one of the maxIterations-many update
magnitudes stays at or above the precision, returns a value exactly when
some step within the cap is the first whose update magnitude falls below
the precision (so it stops at once at that step), and a constructed
configuration carries the default cap 20 and default precision 1e-10. -/
theorem performNewtonApproximation_stops (β π : Type) (est : ImpactPoint3dEstimator β π)
    (u : ℚ → ℚ) (phi v : ℚ) :
    (est.performNewtonApproximation u phi = Except.error VertexingError.NumericalFailure ↔
      ∀ k < est.m_cfg.maxIterations.toNat,
        est.m_cfg.precision ≤ |u^[k + 1] phi - u^[k] phi|) ∧
    (est.performNewtonApproximation u phi = Except.ok v ↔
      ∃ k, k < est.m_cfg.maxIterations.toNat ∧
        (∀ j < k, est.m_cfg.precision ≤ |u^[j + 1] phi - u^[j] phi|) ∧
        |u^[k + 1] phi - u^[k] phi| < est.m_cfg.precision ∧ v = u^[k + 1] phi) ∧
    (∀ (bIn : β) (prop : π) (opts : PropagatorOptions),
      (Config.ctor bIn prop opts true).maxIterations = 20 ∧
      (Config.ctor bIn prop opts true).precision = 1 / 10 ^ 10) :=
  ⟨newtonLoop_error_iff u est.m_cfg.precision est.m_cfg.maxIterations.toNat phi,
   newtonLoop_ok_iff u est.m_cfg.precision est.m_cfg.maxIterations.toNat phi v,
   fun _ _ _ => ⟨rfl, rfl⟩⟩

/-- C2 witness: with the identity update and start phase 0 the very first
step converges, so the default-configured estimator returns 0. -/
theorem performNewtonApproximation_stops_witness :
    wEst.performNewtonApproximation id 0 = Except.ok 0 := by
  refine ((performNewtonApproximation_stops Int Unit wEst id 0 0).2.1).mpr
    ⟨0, ?_, ?_, ?_, ?_⟩
  · show (0 : ℕ) < 20
    norm_num
  · intro j hj
    exact absurd hj (Nat.not_lt_zero j)
  · show |id^[0 + 1] (0 : ℚ) - id^[0] 0| < wEst.m_cfg.precision
    simp only [zero_add, Function.iterate_one, Function.iterate_zero, id_eq, sub_self,
      abs_zero]
    show (0 : ℚ) < 1 / 10 ^ 10
    norm_num
  · show (0 : ℚ) = id^[0 + 1] 0
    simp

/-- C3: whenever calculateDistance succeeds, the returned (squared)
distance is nonnegative, and simultaneously translating the trajectory
reference position and the reference point by the same offset t leaves
the returned value unchanged. -/
theorem calculateDistance_nonneg_translation_invariant (β π : Type)
    (est : ImpactPoint3dEstimator β π) (gctx : GeometryContext) (m : HelixModel)
    (vtxPos t : Vec3) (d : ℚ)
    (h : est.calculateDistance gctx m vtxPos = Except.ok d) :
    0 ≤ d ∧
      est.calculateDistance gctx (translateHelix m t) (Vec3.add vtxPos t)
        = Except.ok d := by
  refine ⟨?_, by rw [calculateDistance_translateHelix est gctx m vtxPos t]; exact h⟩
  revert h
  unfold ImpactPoint3dEstimator.calculateDistance
  cases hres : est.performNewtonApproximation (newtonUpdate m vtxPos) m.phi0 with
  | error e =>
      intro hcontra
      exact absurd hcontra (by simp)
  | ok phiStar =>
      intro hok
      have h2 : Except.ok (Vec3.normSq (Vec3.sub (Vec3.add m.refPos (m.offset phiStar))
          vtxPos)) = Except.ok d := hok
      rw [← Except.ok.inj h2]
      exact vec3_normSq_nonneg _

/-- C3 witness at the example scenario of the spec, translated by
(1, 1, 1). -/
theorem calculateDistance_nonneg_translation_invariant_witness :
    0 ≤ (25 : ℚ) ∧
      wEst.calculateDistance ⟨⟩ (translateHelix wHelix ⟨1, 1, 1⟩)
        (Vec3.add wVtx ⟨1, 1, 1⟩) = Except.ok 25 :=
  calculateDistance_nonneg_translation_invariant Int Unit wEst ⟨⟩ wHelix wVtx
    ⟨1, 1, 1⟩ 25 wEst_calculateDistance_eval

/-- C4: with exactly one cluster per surface group, calculateSpacePoints
after addHits produces exactly one space point per surface whose global
coordinate is the local-to-global transform of that cluster, and, under
the collaborator guarantee that the global-to-local transform inverts the
local-to-global one on the given clusters, mapping each produced global
coordinate back recovers the original local coordinate. -/
theorem calculateSpacePoints_one_per_surface (builder : OneHitSpacePointBuilder)
    (cs : List PlanarModuleCluster)
    (hinv : ∀ c ∈ cs, c.surf.toLocal (builder.globalCoords c) = builder.localCoords c) :
    (builder.calculateSpacePoints (builder.addHits [] (cs.map fun c => [c]))).length
        = cs.length ∧
    builder.calculateSpacePoints (builder.addHits [] (cs.map fun c => [c]))
        = cs.map (fun c => SpacePoint.mk c (some (builder.globalCoords c))) ∧
    ∀ sp ∈ builder.calculateSpacePoints (builder.addHits [] (cs.map fun c => [c])),
      ∃ g, sp.point = some g ∧
        sp.hitModule.surf.toLocal g = builder.localCoords sp.hitModule := by
  have hmain : builder.calculateSpacePoints (builder.addHits [] (cs.map fun c => [c]))
      = cs.map (fun c => SpacePoint.mk c (some (builder.globalCoords c))) := by
    unfold OneHitSpacePointBuilder.addHits OneHitSpacePointBuilder.calculateSpacePoints
    rw [List.nil_append, stageHits_map_singleton, List.map_map]
    rfl
  refine ⟨by rw [hmain, List.length_map], hmain, ?_⟩
  intro sp hsp
  rw [hmain] at hsp
  obtain ⟨c, hc, rfl⟩ := List.mem_map.mp hsp
  exact ⟨builder.globalCoords c, rfl, hinv c hc⟩

/-- C4 witness: two clusters on two distinct surfaces with mutually
inverse transforms. -/
theorem calculateSpacePoints_one_per_surface_witness :
    (wBuilder.calculateSpacePoints (wBuilder.addHits []
        (([wClusterA, wClusterB]).map fun c => [c]))).length
        = ([wClusterA, wClusterB]).length ∧
    wBuilder.calculateSpacePoints (wBuilder.addHits []
        (([wClusterA, wClusterB]).map fun c => [c]))
        = ([wClusterA, wClusterB]).map
            (fun c => SpacePoint.mk c (some (wBuilder.globalCoords c))) ∧
    ∀ sp ∈ wBuilder.calculateSpacePoints (wBuilder.addHits []
        (([wClusterA, wClusterB]).map fun c => [c])),
      ∃ g, sp.point = some g ∧
        sp.hitModule.surf.toLocal g = wBuilder.localCoords sp.hitModule :=
  calculateSpacePoints_one_per_surface wBuilder [wClusterA, wClusterB] (by
    intro c hc
    simp only [List.mem_cons, List.not_mem_nil, or_false] at hc
    rcases hc with rfl | rfl
    · norm_num [wClusterA, wSurfA, OneHitSpacePointBuilder.globalCoords,
        OneHitSpacePointBuilder.localCoords, Vec2.mk.injEq]
    · norm_num [wClusterB, wSurfB, OneHitSpacePointBuilder.globalCoords,
        OneHitSpacePointBuilder.localCoords, Vec2.mk.injEq])

/-- C5: getVertexCompatibility fails with InvalidInput exactly when the
approach-point parameters pointer is null or the parameters carry no
covariance, and with a non-null pointer and a covariance it returns the
scalar compatibility value. -/
theorem getVertexCompatibility_invalidInput_iff (β π : Type)
    (est : ImpactPoint3dEstimator β π) (gctx : GeometryContext)
    (trkParams : Option BoundParameters) (vertexPos : Vec3) :
    (est.getVertexCompatibility gctx trkParams vertexPos
        = Except.error VertexingError.InvalidInput ↔
      trkParams = none ∨ ∃ p, trkParams = some p ∧ p.covariance = none) ∧
    ∀ p cov, trkParams = some p → p.covariance = some cov →
      est.getVertexCompatibility gctx trkParams vertexPos
        = Except.ok (ImpactPoint3dEstimator.compatValue p cov) := by
  constructor
  · cases trkParams with
    | none => simp [ImpactPoint3dEstimator.getVertexCompatibility]
    | some p =>
        cases hcov : p.covariance with
        | none => simp [ImpactPoint3dEstimator.getVertexCompatibility, hcov]
        | some cov => simp [ImpactPoint3dEstimator.getVertexCompatibility, hcov]
  · intro p cov hp hcov
    subst hp
    simp [ImpactPoint3dEstimator.getVertexCompatibility, hcov]

/-- C5 witness: a non-null pointer with a covariance yields the scalar
compatibility value. -/
theorem getVertexCompatibility_invalidInput_iff_witness :
    wEst.getVertexCompatibility ⟨⟩ (some wBP) wVtx
      = Except.ok (ImpactPoint3dEstimator.compatValue wBP wCov) :=
  (getVertexCompatibility_invalidInput_iff Int Unit wEst ⟨⟩ (some wBP) wVtx).2
    wBP wCov rfl rfl

/-- C6: a Config constructed with doBackwardPropagation = true has its
stored propagation options direction set to backward by the end of
construction, every other datum of the options and of the configuration
is stored unchanged, with false the options are stored untouched, and the
estimator constructor stores the finished configuration as is; being a
plain value thereafter, the configuration is never mutated. -/
theorem config_ctor_backward_direction (β π : Type) (bIn : β) (prop : π)
    (propOptions : PropagatorOptions) :
    (Config.ctor bIn prop propOptions true).pOptions.direction
        = NavigationDirection.backward ∧
    (Config.ctor bIn prop propOptions true).pOptions.maxStepSize
        = propOptions.maxStepSize ∧
    (Config.ctor bIn prop propOptions false).pOptions = propOptions ∧
    (Config.ctor bIn prop propOptions true).bField = bIn ∧
    (Config.ctor bIn prop propOptions true).propagator = prop ∧
    (ImpactPoint3dEstimator.mk (Config.ctor bIn prop propOptions true)).m_cfg
        = Config.ctor bIn prop propOptions true :=
  ⟨rfl, rfl, rfl, rfl, rfl, rfl⟩

/-- C7: addHits only appends: the result is the old container followed by
new entries, the length grows by the number of staged entries, and every
entry present before the call is still at its original position with its
original value.  The C++ void return is modelled by returning the new
container value. -/
theorem addHits_append_only (builder : OneHitSpacePointBuilder)
    (spacePoints : List SpacePoint) (hits : List (List PlanarModuleCluster)) :
    (∃ newEntries, builder.addHits spacePoints hits = spacePoints ++ newEntries) ∧
    (builder.addHits spacePoints hits).length
        = spacePoints.length + (stageHits hits).length ∧
    ∀ i (h : i < spacePoints.length),
      ∃ h2 : i < (builder.addHits spacePoints hits).length,
        (builder.addHits spacePoints hits).get ⟨i, h2⟩ = spacePoints.get ⟨i, h⟩ := by
  refine ⟨⟨stageHits hits, rfl⟩, ?_, ?_⟩
  · unfold OneHitSpacePointBuilder.addHits
    rw [List.length_append]
  · intro i h
    have h2 : i < (builder.addHits spacePoints hits).length := by
      unfold OneHitSpacePointBuilder.addHits
      rw [List.length_append]
      omega
    refine ⟨h2, ?_⟩
    simp only [List.get_eq_getElem]
    exact List.getElem_append_left h

/-- C7 witness: one pre-existing entry survives an addHits call at its
position. -/
theorem addHits_append_only_witness :
    ∃ h2 : 0 < (wBuilder.addHits [wSP0] [[wClusterA]]).length,
      (wBuilder.addHits [wSP0] [[wClusterA]]).get ⟨0, h2⟩
        = ([wSP0]).get ⟨0, by simp⟩ :=
  (addHits_append_only wBuilder [wSP0] [[wClusterA]]).2.2 0 (by simp)

/-- C8: no public operation mutates its own instance: every method is
const in the headers (the estimator over its const m_cfg, the builder
being memberless), so the state-threaded embeddings return the instance
state unchanged, and repeating a call on the returned state reproduces
the result. -/
theorem instances_not_mutated (β π : Type) (est : ImpactPoint3dEstimator β π)
    (gctx : GeometryContext) (m : HelixModel) (vtxPos : Vec3)
    (trkParams : Option BoundParameters) (builder : OneHitSpacePointBuilder)
    (spacePoints : List SpacePoint) (hits : List (List PlanarModuleCluster))
    (hit : PlanarModuleCluster) :
    (est.calculateDistanceRun gctx m vtxPos).1 = est ∧
    (est.getVertexCompatibilityRun gctx trkParams vtxPos).1 = est ∧
    (builder.addHitsRun spacePoints hits).1 = builder ∧
    (builder.calculateSpacePointsRun spacePoints).1 = builder ∧
    (builder.localCoordsRun hit).1 = builder ∧
    (builder.globalCoordsRun hit).1 = builder ∧
    ((est.calculateDistanceRun gctx m vtxPos).1).calculateDistance gctx m vtxPos
        = est.calculateDistance gctx m vtxPos ∧
    ((builder.addHitsRun spacePoints hits).1).addHits spacePoints hits
        = builder.addHits spacePoints hits :=
  ⟨rfl, rfl, rfl, rfl, rfl, rfl, rfl, rfl⟩

/-- C9: a Config constructed without passing doBackwardPropagation uses
the declared default true, so the stored propagation options direction is
backward. -/
theorem config_ctorDefault_backward (β π : Type) (bIn : β) (prop : π)
    (propOptions : PropagatorOptions) :
    Config.ctorDefault bIn prop propOptions = Config.ctor bIn prop propOptions true ∧
    (Config.ctorDefault bIn prop propOptions).pOptions.direction
        = NavigationDirection.backward :=
  ⟨rfl, rfl⟩

/-- C10: with a configured field model, getBField returns exactly the z
component of the field vector at the position, so two estimators whose
field models agree in the z component there return the same value: the
transverse components never influence the result. -/
theorem getBField_withField_z_only (π : Type)
    (estA estB : ImpactPoint3dEstimator BFieldModel π) (linPointPos : Vec3)
    (h : (estB.m_cfg.bField.getField linPointPos).z
        = (estA.m_cfg.bField.getField linPointPos).z) :
    estA.getBField_withField linPointPos
        = (estA.m_cfg.bField.getField linPointPos).z ∧
    estB.getBField_withField linPointPos = estA.getBField_withField linPointPos :=
  ⟨rfl, h⟩

/-- C10 witness: two field models differing in the transverse components
but agreeing in the z component give the same getBField value. -/
theorem getBField_withField_z_only_witness :
    wEstFA.getBField_withField ⟨1, 2, 3⟩
        = (wEstFA.m_cfg.bField.getField ⟨1, 2, 3⟩).z ∧
    wEstFB.getBField_withField ⟨1, 2, 3⟩ = wEstFA.getBField_withField ⟨1, 2, 3⟩ :=
  getBField_withField_z_only Unit wEstFA wEstFB ⟨1, 2, 3⟩ rfl
